import Mathlib

/-!
Verification of the asynchronous-notification module (`src/notification.rs`)
of the rust-postgres client.

The module maintains, inside the shared connection state, a FIFO queue of
pending notifications and a sticky desynchronization flag, and exposes three
iterator variants (`Iter`, `BlockingIter`, `TimeoutIter`).  Each variant's
`next` first tries `notifications.pop_front()`, then checks
`is_desynchronized()`, and only then invokes its bound read strategy
(`read_message_with_notification_nonblocking`, `read_message_with_notification`,
`read_message_with_notification_timeout`).

The read strategies live outside this module (on the connection collaborator);
here each one is represented by the outcome it would return at the moment of
the call, passed as an explicit argument to `next`.  State changes internal to
the collaborator are outside the scope of this module's code.
-/

/-- An asynchronous notification (`struct Notification`): process id of the
notifying backend, channel name, and payload string. -/
structure Notification where
  process_id : Int
  channel : String
  payload : String
  deriving DecidableEq, Repr

/-- Decoded backend protocol messages as seen by this module.  The source
matches only `Backend::NotificationResponse { process_id, channel, payload }`;
`otherMessage` stands for every other variant of `message::Backend` (a module
that is an external collaborator of this one). -/
inductive Backend where
  | NotificationResponse (process_id : Int) (channel : String) (payload : String)
  | otherMessage (kind : String)
  deriving DecidableEq, Repr

/-- Whether a decoded message is of the notification kind. -/
def Backend.isNotification : Backend → Bool
  | .NotificationResponse _ _ _ => true
  | .otherMessage _ => false

/-- Transport-level errors.  `desynchronized` models the dedicated error value
built by the crate's `desynchronized()` helper ("communication with the server
has desynchronized due to an earlier IO error"); `other` models every other
transport failure. -/
inductive IoError where
  | desynchronized
  | other (msg : String)
  deriving DecidableEq, Repr

/-- The crate error type, restricted to the variant this module produces:
`Error::Io` wrapping a transport error.  Named `ioErr` here. -/
inductive Error where
  | ioErr (e : IoError)
  deriving DecidableEq, Repr

/-- The connection-internal state this module touches: the pending
notification queue (`VecDeque<Notification>`, front of the list = front of the
deque) and the desynchronization latch. -/
structure InnerConnection where
  notifications : List Notification
  desynchronized : Bool
  deriving DecidableEq, Repr

/-- `InnerConnection::is_desynchronized`: point-in-time read of the latch. -/
def InnerConnection.is_desynchronized (c : InnerConnection) : Bool :=
  c.desynchronized

/-- `VecDeque::pop_front` on the pending queue: removes and returns the oldest
record, or signals emptiness, leaving the state otherwise unchanged. -/
def InnerConnection.pop_front (c : InnerConnection) :
    Option Notification × InnerConnection :=
  match c.notifications with
  | [] => (none, c)
  | n :: rest => (some n, { c with notifications := rest })

/-- Modelled from the spec: the transport/decoder collaborator appends a
notification encountered while skipping unrelated protocol traffic to the back
of the Pending Queue (`VecDeque::push_back`; the appending code lives on the
connection collaborator, outside this module). -/
def InnerConnection.push_back (c : InnerConnection) (n : Notification) :
    InnerConnection :=
  { c with notifications := c.notifications ++ [n] }

instance {ε α : Type} [DecidableEq ε] [DecidableEq α] :
    DecidableEq (Except ε α) := fun x y =>
  match x, y with
  | .error a, .error b =>
      if h : a = b then isTrue (congrArg Except.error h)
      else isFalse (fun hc => h (Except.error.inj hc))
  | .ok a, .ok b =>
      if h : a = b then isTrue (congrArg Except.ok h)
      else isFalse (fun hc => h (Except.ok.inj hc))
  | .error _, .ok _ => isFalse (fun hc => Except.noConfusion hc)
  | .ok _, .error _ => isFalse (fun hc => Except.noConfusion hc)

/-- Outcome of a single pull.  `ret r` is the Rust function returning the
`Result<Option<Notification>>` value `r`; `panicked` models the
`unreachable!()` arm aborting the pull instead of returning a value. -/
inductive PullOutcome where
  | ret (r : Except Error (Option Notification))
  | panicked
  deriving DecidableEq, Repr

/-- `Iter::next` (the non-blocking variant).  `read` is the outcome
`read_message_with_notification_nonblocking()` would produce at this point:
`ok none` means no data currently available on the transport. -/
def Iter.next (c : InnerConnection)
    (read : Except IoError (Option Backend)) :
    PullOutcome × InnerConnection :=
  match c.pop_front with
  | (some n, c2) => (.ret (.ok (some n)), c2)
  | (none, c2) =>
      if c2.is_desynchronized then
        (.ret (.error (.ioErr .desynchronized)), c2)
      else
        match read with
        | .ok (some (Backend.NotificationResponse pid ch pl)) =>
            (.ret (.ok (some { process_id := pid, channel := ch, payload := pl })), c2)
        | .ok none => (.ret (.ok none), c2)
        | .error err => (.ret (.error (.ioErr err)), c2)
        | .ok (some _) => (.panicked, c2)

/-- `Iter::size_hint`: lower bound is the current queue depth, no upper
bound. -/
def Iter.size_hint (c : InnerConnection) : Nat × Option Nat :=
  (c.notifications.length, none)

/-- `BlockingIter::next` (the indefinite-blocking variant).  `read` is the
outcome `read_message_with_notification()` would produce: it blocks until a
full message or an error, so there is no `none` case. -/
def BlockingIter.next (c : InnerConnection)
    (read : Except IoError Backend) :
    PullOutcome × InnerConnection :=
  match c.pop_front with
  | (some n, c2) => (.ret (.ok (some n)), c2)
  | (none, c2) =>
      if c2.is_desynchronized then
        (.ret (.error (.ioErr .desynchronized)), c2)
      else
        match read with
        | .ok (Backend.NotificationResponse pid ch pl) =>
            (.ret (.ok (some { process_id := pid, channel := ch, payload := pl })), c2)
        | .error err => (.ret (.error (.ioErr err)), c2)
        | .ok _ => (.panicked, c2)

/-- `BlockingIter`'s `FallibleIterator` impl provides no `size_hint` override;
the effective method is the trait's default, which returns `(0, None)`
(modelled from the `fallible_iterator` crate, an external collaborator). -/
def BlockingIter.size_hint (_c : InnerConnection) : Nat × Option Nat :=
  (0, none)

/-- `TimeoutIter::next` (the deadline-bounded variant).  `timeout` is the
stored duration; `read` is the outcome
`read_message_with_notification_timeout(timeout)` would produce, with
`ok none` meaning the deadline expired without a message. -/
def TimeoutIter.next (c : InnerConnection) (_timeout : Nat)
    (read : Except IoError (Option Backend)) :
    PullOutcome × InnerConnection :=
  match c.pop_front with
  | (some n, c2) => (.ret (.ok (some n)), c2)
  | (none, c2) =>
      if c2.is_desynchronized then
        (.ret (.error (.ioErr .desynchronized)), c2)
      else
        match read with
        | .ok (some (Backend.NotificationResponse pid ch pl)) =>
            (.ret (.ok (some { process_id := pid, channel := ch, payload := pl })), c2)
        | .ok none => (.ret (.ok none), c2)
        | .error err => (.ret (.error (.ioErr err)), c2)
        | .ok (some _) => (.panicked, c2)

/-- `TimeoutIter::size_hint`: lower bound is the current queue depth, no upper
bound. -/
def TimeoutIter.size_hint (c : InnerConnection) : Nat × Option Nat :=
  (c.notifications.length, none)

/-- `Notifications::len` on the facade: number of pending notifications. -/
def Notifications.len (c : InnerConnection) : Nat :=
  c.notifications.length

/-- `Notifications::is_empty` on the facade. -/
def Notifications.is_empty (c : InnerConnection) : Bool :=
  Notifications.len c == 0

/-- The translation of a nonblocking / deadline-bounded read outcome performed
by the final `match` of `Iter::next` and `TimeoutIter::next`. -/
def mapReadNB : Except IoError (Option Backend) → PullOutcome
  | .ok (some (Backend.NotificationResponse pid ch pl)) =>
      .ret (.ok (some { process_id := pid, channel := ch, payload := pl }))
  | .ok none => .ret (.ok none)
  | .error err => .ret (.error (.ioErr err))
  | .ok (some _) => .panicked

/-- The translation of a blocking read outcome performed by the final `match`
of `BlockingIter::next`. -/
def mapReadBlocking : Except IoError Backend → PullOutcome
  | .ok (Backend.NotificationResponse pid ch pl) =>
      .ret (.ok (some { process_id := pid, channel := ch, payload := pl }))
  | .error err => .ret (.error (.ioErr err))
  | .ok _ => .panicked

/-- One pull, tagged with the variant that performs it and the read outcome
its strategy would yield. -/
inductive PullEvent where
  | nonblocking (read : Except IoError (Option Backend))
  | blocking (read : Except IoError Backend)
  | deadline (timeout : Nat) (read : Except IoError (Option Backend))
  deriving DecidableEq, Repr

/-- Dispatch a pull event to the corresponding variant's `next`. -/
def doPull (c : InnerConnection) : PullEvent → PullOutcome × InnerConnection
  | .nonblocking r => Iter.next c r
  | .blocking r => BlockingIter.next c r
  | .deadline t r => TimeoutIter.next c t r

/-- An interleaving step: either the collaborator appends a notification to
the Pending Queue, or some iterator variant performs a pull. -/
inductive Event where
  | append (n : Notification)
  | pull (e : PullEvent)
  deriving DecidableEq, Repr

/-- Run a sequence of interleaved appends and pulls, collecting the records
delivered from the Pending Queue (a pull pops the front record exactly when
the queue is non-empty, so the record a pull delivers from the queue is
`take 1` of the queue at pull time). -/
def runEvents : InnerConnection → List Event → List Notification × InnerConnection
  | c, [] => ([], c)
  | c, Event.append n :: es => runEvents (c.push_back n) es
  | c, Event.pull e :: es =>
      let r2 := runEvents (doPull c e).2 es
      (c.notifications.take 1 ++ r2.1, r2.2)

/-- The notifications appended by a sequence of events, in order. -/
def appendsOf : List Event → List Notification
  | [] => []
  | Event.append n :: es => n :: appendsOf es
  | Event.pull _ :: es => appendsOf es

/-- Run a sequence of pulls only, collecting every pull's outcome. -/
def runPulls : InnerConnection → List PullEvent → List PullOutcome × InnerConnection
  | c, [] => ([], c)
  | c, e :: es =>
      let p := doPull c e
      let r2 := runPulls p.2 es
      (p.1 :: r2.1, r2.2)

/-- Well-formedness of a nonblocking / deadline read outcome: any decoded
message it hands to this layer is of the notification kind. -/
def nbWellFormed : Except IoError (Option Backend) → Bool
  | .ok (some m) => m.isNotification
  | .ok none => true
  | .error _ => true

/-- Well-formedness of a blocking read outcome: any decoded message it hands
to this layer is of the notification kind. -/
def bWellFormed : Except IoError Backend → Bool
  | .ok m => m.isNotification
  | .error _ => true

/-! ### State-effect lemmas shared by several proofs -/

theorem Iter_next_snd (c : InnerConnection) (r : Except IoError (Option Backend)) :
    (Iter.next c r).2 = ⟨c.notifications.tail, c.desynchronized⟩ := by
  obtain ⟨q, d⟩ := c
  rcases q with _ | ⟨n, rest⟩
  · rcases d with _ | _
    · rcases r with err | (_ | (⟨pid, ch, pl⟩ | k)) <;> rfl
    · rfl
  · rfl

theorem BlockingIter_next_snd (c : InnerConnection) (r : Except IoError Backend) :
    (BlockingIter.next c r).2 = ⟨c.notifications.tail, c.desynchronized⟩ := by
  obtain ⟨q, d⟩ := c
  rcases q with _ | ⟨n, rest⟩
  · rcases d with _ | _
    · rcases r with err | (⟨pid, ch, pl⟩ | k) <;> rfl
    · rfl
  · rfl

theorem TimeoutIter_next_snd (c : InnerConnection) (t : Nat)
    (r : Except IoError (Option Backend)) :
    (TimeoutIter.next c t r).2 = ⟨c.notifications.tail, c.desynchronized⟩ := by
  obtain ⟨q, d⟩ := c
  rcases q with _ | ⟨n, rest⟩
  · rcases d with _ | _
    · rcases r with err | (_ | (⟨pid, ch, pl⟩ | k)) <;> rfl
    · rfl
  · rfl

theorem doPull_snd (c : InnerConnection) (e : PullEvent) :
    (doPull c e).2 = ⟨c.notifications.tail, c.desynchronized⟩ := by
  cases e with
  | nonblocking r => exact Iter_next_snd c r
  | blocking r => exact BlockingIter_next_snd c r
  | deadline t r => exact TimeoutIter_next_snd c t r

/-! ### Claim theorems -/

/-- Claim C1: every pull on any of the three iterator variants follows the
same three-step order.  (1) A non-empty queue is popped and its front record
returned, with the result and resulting state independent of the read
strategy's outcome and of the flag.  (2) Otherwise a set desynchronization
flag fails the pull with the desynchronization error, the result again
independent of the read strategy's outcome.  (3) Otherwise the result is
exactly the translation of the variant's bound read strategy's outcome. -/
theorem pull_three_step_order (c : InnerConnection) :
    (∀ n rest, c.notifications = n :: rest →
      ∀ (r : Except IoError (Option Backend)) (rb : Except IoError Backend) (t : Nat),
        Iter.next c r = (.ret (.ok (some n)), ⟨rest, c.desynchronized⟩) ∧
        BlockingIter.next c rb = (.ret (.ok (some n)), ⟨rest, c.desynchronized⟩) ∧
        TimeoutIter.next c t r = (.ret (.ok (some n)), ⟨rest, c.desynchronized⟩)) ∧
    (c.notifications = [] → c.is_desynchronized = true →
      ∀ (r : Except IoError (Option Backend)) (rb : Except IoError Backend) (t : Nat),
        Iter.next c r = (.ret (.error (.ioErr .desynchronized)), c) ∧
        BlockingIter.next c rb = (.ret (.error (.ioErr .desynchronized)), c) ∧
        TimeoutIter.next c t r = (.ret (.error (.ioErr .desynchronized)), c)) ∧
    (c.notifications = [] → c.is_desynchronized = false →
      ∀ (r : Except IoError (Option Backend)) (rb : Except IoError Backend) (t : Nat),
        Iter.next c r = (mapReadNB r, c) ∧
        BlockingIter.next c rb = (mapReadBlocking rb, c) ∧
        TimeoutIter.next c t r = (mapReadNB r, c)) := by
  obtain ⟨q, d⟩ := c
  refine ⟨?_, ?_, ?_⟩
  · rintro n rest rfl r rb t
    exact ⟨rfl, rfl, rfl⟩
  · rintro rfl hd r rb t
    cases d
    · exact absurd hd (by simp [InnerConnection.is_desynchronized])
    · exact ⟨rfl, rfl, rfl⟩
  · rintro rfl hd r rb t
    cases d
    · refine ⟨?_, ?_, ?_⟩
      · rcases r with err | (_ | (⟨pid, ch, pl⟩ | k)) <;> rfl
      · rcases rb with err | (⟨pid, ch, pl⟩ | k) <;> rfl
      · rcases r with err | (_ | (⟨pid, ch, pl⟩ | k)) <;> rfl
    · exact absurd hd (by simp [InnerConnection.is_desynchronized])

theorem pull_three_step_order_witness :
    Iter.next ⟨[⟨42, "ch1", "hello"⟩], true⟩ (Except.ok none)
      = (.ret (.ok (some ⟨42, "ch1", "hello"⟩)), ⟨[], true⟩) ∧
    BlockingIter.next ⟨[], true⟩ (Except.error (IoError.other "boom"))
      = (.ret (.error (.ioErr .desynchronized)), ⟨[], true⟩) ∧
    TimeoutIter.next ⟨[], false⟩ 5 (Except.ok none)
      = (.ret (.ok none), ⟨[], false⟩) := by
  refine ⟨?_, ?_, ?_⟩
  · exact ((pull_three_step_order ⟨[⟨42, "ch1", "hello"⟩], true⟩).1
      ⟨42, "ch1", "hello"⟩ [] rfl (Except.ok none)
      (Except.ok (Backend.otherMessage "x")) 0).1
  · exact ((pull_three_step_order ⟨[], true⟩).2.1 rfl rfl (Except.ok none)
      (Except.error (IoError.other "boom")) 0).2.1
  · exact ((pull_three_step_order ⟨[], false⟩).2.2 rfl rfl (Except.ok none)
      (Except.ok (Backend.otherMessage "x")) 5).2.2

/-- Claim C3: a pull on the indefinite-blocking iterator never returns the
empty outcome `Ok(None)`: its read strategy has no "nothing yet" case, so
every pull pops a queued record, fails, produces a notification from the
read, or hits the unreachable arm. -/
theorem blocking_never_empty (c : InnerConnection) (r : Except IoError Backend) :
    (BlockingIter.next c r).1 ≠ PullOutcome.ret (Except.ok none) := by
  obtain ⟨q, d⟩ := c
  rcases q with _ | ⟨n, rest⟩
  · rcases d with _ | _
    · rcases r with err | (⟨pid, ch, pl⟩ | k) <;>
        simp [BlockingIter.next, InnerConnection.pop_front,
          InnerConnection.is_desynchronized]
    · simp [BlockingIter.next, InnerConnection.pop_front,
        InnerConnection.is_desynchronized]
  · simp [BlockingIter.next, InnerConnection.pop_front]

/-- Claim C4: with the queue empty and the flag set, every variant's pull
fails immediately with the desynchronization error kind, without the read
outcome being consulted, and leaves the state untouched; consequently every
pull of any subsequent sequence of pulls fails with the same error kind for
the connection's lifetime. -/
theorem desync_latch (c : InnerConnection)
    (hq : c.notifications = []) (hd : c.is_desynchronized = true) :
    (∀ e : PullEvent, doPull c e = (.ret (.error (.ioErr .desynchronized)), c)) ∧
    (∀ es : List PullEvent,
      (runPulls c es).1
        = es.map (fun _ => PullOutcome.ret (.error (.ioErr .desynchronized))) ∧
      (runPulls c es).2 = c) := by
  have hc : c = ⟨[], true⟩ := by
    have h1 : c = ⟨c.notifications, c.desynchronized⟩ := rfl
    rw [h1, hq, show c.desynchronized = true from hd]
  subst hc
  have step : ∀ e : PullEvent,
      doPull ⟨[], true⟩ e = (.ret (.error (.ioErr .desynchronized)), ⟨[], true⟩) := by
    intro e
    cases e <;> rfl
  refine ⟨step, ?_⟩
  intro es
  induction es with
  | nil => exact ⟨rfl, rfl⟩
  | cons e es ih =>
    simp [runPulls, step e, ih.1, ih.2]

theorem desync_latch_witness :
    doPull ⟨[], true⟩
        (PullEvent.blocking (Except.ok (Backend.NotificationResponse 1 "c" "p")))
      = (.ret (.error (.ioErr .desynchronized)), ⟨[], true⟩) ∧
    (runPulls ⟨[], true⟩
        [PullEvent.nonblocking (Except.ok none), PullEvent.deadline 3 (Except.ok none)]).1
      = [.ret (.error (.ioErr .desynchronized)),
         .ret (.error (.ioErr .desynchronized))] := by
  refine ⟨(desync_latch ⟨[], true⟩ rfl rfl).1 _, ?_⟩
  exact ((desync_latch ⟨[], true⟩ rfl rfl).2
    [PullEvent.nonblocking (Except.ok none), PullEvent.deadline 3 (Except.ok none)]).1

theorem doPull_cons (n : Notification) (rest : List Notification) (d : Bool)
    (e : PullEvent) :
    doPull ⟨n :: rest, d⟩ e = (.ret (.ok (some n)), ⟨rest, d⟩) := by
  cases e <;> rfl

theorem take_one_append_tail (l : List Notification) :
    l.take 1 ++ l.tail = l := by
  cases l <;> simp

/-- Claim C2: when the Pending Queue is non-empty and the desynchronization
flag is already set, a pull on any variant still returns the front queued
record successfully; only a pull finding the queue empty with the flag set
fails with the desynchronization error. -/
theorem queue_priority_over_desync (c : InnerConnection) (n : Notification)
    (rest : List Notification) (hd : c.is_desynchronized = true)
    (hq : c.notifications = n :: rest) :
    (∀ e : PullEvent, doPull c e = (.ret (.ok (some n)), ⟨rest, true⟩)) ∧
    (∀ c2 : InnerConnection, c2.notifications = [] →
      c2.is_desynchronized = true →
      ∀ e : PullEvent,
        doPull c2 e = (.ret (.error (.ioErr .desynchronized)), c2)) := by
  have hc : c = ⟨n :: rest, true⟩ := by
    have h1 : c = ⟨c.notifications, c.desynchronized⟩ := rfl
    rw [h1, hq, show c.desynchronized = true from hd]
  subst hc
  refine ⟨fun e => doPull_cons n rest true e, ?_⟩
  intro c2 hq2 hd2 e
  have hc2 : c2 = ⟨[], true⟩ := by
    have h1 : c2 = ⟨c2.notifications, c2.desynchronized⟩ := rfl
    rw [h1, hq2, show c2.desynchronized = true from hd2]
  subst hc2
  cases e <;> rfl

theorem queue_priority_over_desync_witness :
    doPull ⟨[⟨7, "x", ""⟩], true⟩ (PullEvent.nonblocking (Except.ok none))
      = (.ret (.ok (some ⟨7, "x", ""⟩)), ⟨[], true⟩) ∧
    doPull ⟨[], true⟩ (PullEvent.blocking (Except.error (IoError.other "e")))
      = (.ret (.error (.ioErr .desynchronized)), ⟨[], true⟩) := by
  refine ⟨(queue_priority_over_desync ⟨[⟨7, "x", ""⟩], true⟩ ⟨7, "x", ""⟩ []
    rfl rfl).1 _, ?_⟩
  exact (queue_priority_over_desync ⟨[⟨7, "x", ""⟩], true⟩ ⟨7, "x", ""⟩ []
    rfl rfl).2 ⟨[], true⟩ rfl rfl _

/-- Claim C5: FIFO and no-loss for the Pending Queue.  For any interleaving
of appends and of pulls across the three iterator variants, the records
delivered from the queue followed by the records still queued equal the
initial queue contents followed by the appended records in append order:
queue records are delivered in exactly FIFO order, each by exactly one pull,
never duplicated and never dropped. -/
theorem fifo_no_loss (c : InnerConnection) (es : List Event) :
    (runEvents c es).1 ++ (runEvents c es).2.notifications
      = c.notifications ++ appendsOf es := by
  induction es generalizing c with
  | nil => simp [runEvents, appendsOf]
  | cons e es ih =>
    cases e with
    | append n =>
      rw [show runEvents c (Event.append n :: es)
            = runEvents (c.push_back n) es from rfl,
          show appendsOf (Event.append n :: es) = n :: appendsOf es from rfl,
          ih (c.push_back n)]
      simp [InnerConnection.push_back]
    | pull pe =>
      have h2 := ih ((doPull c pe).2)
      have h3 : (doPull c pe).2.notifications = c.notifications.tail := by
        rw [doPull_snd]
      rw [h3] at h2
      rw [show runEvents c (Event.pull pe :: es)
            = (c.notifications.take 1 ++ (runEvents (doPull c pe).2 es).1,
               (runEvents (doPull c pe).2 es).2) from rfl,
          show appendsOf (Event.pull pe :: es) = appendsOf es from rfl]
      rw [List.append_assoc, h2, ← List.append_assoc, take_one_append_tail]

/-- Claim C6: an empty result from a non-blocking or deadline-bounded pull is
not terminal: the pull leaves the connection state unchanged, and once a
record is appended to the Pending Queue, the next pull on the same or the
other non-blocking/deadline variant over the same connection returns that
record (the variants keep no per-iterator consumption state; the pull result
depends only on the connection state and read outcome at pull time). -/
theorem empty_not_terminal (c : InnerConnection)
    (r : Except IoError (Option Backend)) (t : Nat) :
    ((Iter.next c r).1 = .ret (.ok none) →
      (Iter.next c r).2 = c ∧
      ∀ (n : Notification) (r2 : Except IoError (Option Backend)) (t2 : Nat),
        Iter.next ((Iter.next c r).2.push_back n) r2
          = (.ret (.ok (some n)), c) ∧
        TimeoutIter.next ((Iter.next c r).2.push_back n) t2 r2
          = (.ret (.ok (some n)), c)) ∧
    ((TimeoutIter.next c t r).1 = .ret (.ok none) →
      (TimeoutIter.next c t r).2 = c ∧
      ∀ (n : Notification) (r2 : Except IoError (Option Backend)) (t2 : Nat),
        Iter.next ((TimeoutIter.next c t r).2.push_back n) r2
          = (.ret (.ok (some n)), c) ∧
        TimeoutIter.next ((TimeoutIter.next c t r).2.push_back n) t2 r2
          = (.ret (.ok (some n)), c)) := by
  obtain ⟨q, d⟩ := c
  constructor
  · intro h
    rcases q with _ | ⟨m, rest⟩
    · rcases d with _ | _
      · refine ⟨Iter_next_snd _ _, ?_⟩
        intro n r2 t2
        rw [show (Iter.next ⟨[], false⟩ r).2 = ⟨[], false⟩ from Iter_next_snd _ _]
        exact ⟨rfl, rfl⟩
      · exact absurd h (by simp [Iter.next, InnerConnection.pop_front,
          InnerConnection.is_desynchronized])
    · exact absurd h (by simp [Iter.next, InnerConnection.pop_front])
  · intro h
    rcases q with _ | ⟨m, rest⟩
    · rcases d with _ | _
      · refine ⟨TimeoutIter_next_snd _ _ _, ?_⟩
        intro n r2 t2
        rw [show (TimeoutIter.next ⟨[], false⟩ t r).2 = ⟨[], false⟩ from
          TimeoutIter_next_snd _ _ _]
        exact ⟨rfl, rfl⟩
      · exact absurd h (by simp [TimeoutIter.next, InnerConnection.pop_front,
          InnerConnection.is_desynchronized])
    · exact absurd h (by simp [TimeoutIter.next, InnerConnection.pop_front])

theorem empty_not_terminal_witness :
    Iter.next ((Iter.next ⟨[], false⟩ (Except.ok none)).2.push_back
        ⟨42, "ch1", "hello"⟩) (Except.ok none)
      = (.ret (.ok (some ⟨42, "ch1", "hello"⟩)), ⟨[], false⟩) :=
  (((empty_not_terminal ⟨[], false⟩ (Except.ok none) 0).1 rfl).2
    ⟨42, "ch1", "hello"⟩ (Except.ok none) 0).1

/-- Claim C7: with the queue empty and the flag clear, the non-blocking and
deadline-bounded pulls map the read strategy's outcome exactly: a "nothing
available" result from the transport produces the successful empty outcome,
never an error, and a transport I/O error is propagated to the caller as an
I/O error, never swallowed and never turned into an empty result. -/
theorem nb_outcome_mapping (c : InnerConnection)
    (hq : c.notifications = []) (hd : c.is_desynchronized = false) (t : Nat) :
    (Iter.next c (Except.ok none) = (.ret (.ok none), c) ∧
     TimeoutIter.next c t (Except.ok none) = (.ret (.ok none), c)) ∧
    (∀ err : IoError,
      Iter.next c (Except.error err) = (.ret (.error (.ioErr err)), c) ∧
      TimeoutIter.next c t (Except.error err)
        = (.ret (.error (.ioErr err)), c)) := by
  have hc : c = ⟨[], false⟩ := by
    have h1 : c = ⟨c.notifications, c.desynchronized⟩ := rfl
    rw [h1, hq, show c.desynchronized = false from hd]
  subst hc
  exact ⟨⟨rfl, rfl⟩, fun err => ⟨rfl, rfl⟩⟩

theorem nb_outcome_mapping_witness :
    Iter.next ⟨[], false⟩ (Except.error (IoError.other "reset"))
      = (.ret (.error (.ioErr (IoError.other "reset"))), ⟨[], false⟩) ∧
    TimeoutIter.next ⟨[], false⟩ 9 (Except.ok none)
      = (.ret (.ok none), ⟨[], false⟩) :=
  ⟨((nb_outcome_mapping ⟨[], false⟩ rfl rfl 0).2 (IoError.other "reset")).1,
   (nb_outcome_mapping ⟨[], false⟩ rfl rfl 9).1.2⟩

/-- Claim C8 counterexample: `BlockingIter`'s `FallibleIterator` impl has no
`size_hint` override, so on a connection holding one pending notification its
size estimate's lower bound is `0`, not the queue depth `1`. -/
theorem size_hint_counterexample :
    (BlockingIter.size_hint ⟨[⟨7, "x", ""⟩], false⟩).1
      ≠ Notifications.len ⟨[⟨7, "x", ""⟩], false⟩ := by
  decide

/-- Claim C8 (amended): `Iter` and `TimeoutIter` expose a size estimate whose
lower bound equals the current Pending Queue depth at query time, with no
upper bound; `BlockingIter` inherits the trait-default estimate of lower
bound `0` with no upper bound. -/
theorem size_hint_amended (c : InnerConnection) :
    Iter.size_hint c = (Notifications.len c, none) ∧
    TimeoutIter.size_hint c = (Notifications.len c, none) ∧
    BlockingIter.size_hint c = (0, none) :=
  ⟨rfl, rfl, rfl⟩

theorem Iter_next_panicked_iff (c : InnerConnection)
    (r : Except IoError (Option Backend)) :
    (Iter.next c r).1 = .panicked ↔
      c.notifications = [] ∧ c.desynchronized = false ∧
        nbWellFormed r = false := by
  obtain ⟨q, d⟩ := c
  rcases q with _ | ⟨n, rest⟩ <;> rcases d with _ | _ <;>
    rcases r with err | (_ | (⟨pid, ch, pl⟩ | k)) <;>
    simp [Iter.next, InnerConnection.pop_front,
      InnerConnection.is_desynchronized, nbWellFormed, Backend.isNotification]

theorem BlockingIter_next_panicked_iff (c : InnerConnection)
    (r : Except IoError Backend) :
    (BlockingIter.next c r).1 = .panicked ↔
      c.notifications = [] ∧ c.desynchronized = false ∧
        bWellFormed r = false := by
  obtain ⟨q, d⟩ := c
  rcases q with _ | ⟨n, rest⟩ <;> rcases d with _ | _ <;>
    rcases r with err | (⟨pid, ch, pl⟩ | k) <;>
    simp [BlockingIter.next, InnerConnection.pop_front,
      InnerConnection.is_desynchronized, bWellFormed, Backend.isNotification]

theorem TimeoutIter_next_panicked_iff (c : InnerConnection) (t : Nat)
    (r : Except IoError (Option Backend)) :
    (TimeoutIter.next c t r).1 = .panicked ↔
      c.notifications = [] ∧ c.desynchronized = false ∧
        nbWellFormed r = false := by
  obtain ⟨q, d⟩ := c
  rcases q with _ | ⟨n, rest⟩ <;> rcases d with _ | _ <;>
    rcases r with err | (_ | (⟨pid, ch, pl⟩ | k)) <;>
    simp [TimeoutIter.next, InnerConnection.pop_front,
      InnerConnection.is_desynchronized, nbWellFormed, Backend.isNotification]

/-- Claim C9: if the transport/decoder collaborator hands this layer only
notification-kind messages, no pull on any variant ever takes the
`unreachable!()` arm; and if the precondition is violated while the queue is
empty and the flag clear, the pull halts in the panicked outcome instead of
returning a value. -/
theorem unreachable_guard (c : InnerConnection) (t : Nat) :
    (∀ r : Except IoError (Option Backend), nbWellFormed r = true →
      (Iter.next c r).1 ≠ .panicked ∧
      (TimeoutIter.next c t r).1 ≠ .panicked) ∧
    (∀ rb : Except IoError Backend, bWellFormed rb = true →
      (BlockingIter.next c rb).1 ≠ .panicked) ∧
    (c.notifications = [] → c.is_desynchronized = false →
      ∀ m : Backend, m.isNotification = false →
        (Iter.next c (Except.ok (some m))).1 = .panicked ∧
        (BlockingIter.next c (Except.ok m)).1 = .panicked ∧
        (TimeoutIter.next c t (Except.ok (some m))).1 = .panicked) := by
  refine ⟨?_, ?_, ?_⟩
  · intro r hr
    constructor
    · simp [Iter_next_panicked_iff, hr]
    · simp [TimeoutIter_next_panicked_iff, hr]
  · intro rb hrb
    simp [BlockingIter_next_panicked_iff, hrb]
  · intro hq hd m hm
    refine ⟨?_, ?_, ?_⟩
    · rw [Iter_next_panicked_iff]
      exact ⟨hq, hd, by simp [nbWellFormed, hm]⟩
    · rw [BlockingIter_next_panicked_iff]
      exact ⟨hq, hd, by simp [bWellFormed, hm]⟩
    · rw [TimeoutIter_next_panicked_iff]
      exact ⟨hq, hd, by simp [nbWellFormed, hm]⟩

theorem unreachable_guard_witness :
    (Iter.next ⟨[], false⟩
        (Except.ok (some (Backend.otherMessage "ReadyForQuery")))).1
      = PullOutcome.panicked ∧
    (BlockingIter.next ⟨[], true⟩
        (Except.ok (Backend.NotificationResponse 1 "c" "p"))).1
      ≠ PullOutcome.panicked :=
  ⟨((unreachable_guard ⟨[], false⟩ 0).2.2 rfl rfl
      (Backend.otherMessage "ReadyForQuery") rfl).1,
   (unreachable_guard ⟨[], true⟩ 0).2.1
      (Except.ok (Backend.NotificationResponse 1 "c" "p")) rfl⟩

/-- Claim C10: frame of a single pull, on any variant.  The new queue is the
tail of the old one, so a pull removes at most one record, always the front,
and leaves the remaining records and their relative order unchanged; a pull
never modifies the desynchronization flag; and a pull that returns an error
leaves the whole connection state exactly as it found it. -/
theorem pull_frame (c : InnerConnection) (e : PullEvent) :
    (doPull c e).2.notifications = c.notifications.tail ∧
    (doPull c e).2.desynchronized = c.desynchronized ∧
    (∀ err : Error, (doPull c e).1 = PullOutcome.ret (Except.error err) →
      (doPull c e).2 = c) := by
  refine ⟨by rw [doPull_snd], by rw [doPull_snd], ?_⟩
  intro err he
  obtain ⟨q, d⟩ := c
  rcases q with _ | ⟨n, rest⟩
  · exact doPull_snd _ e
  · rw [doPull_cons] at he
    simp at he

theorem pull_frame_witness :
    (doPull ⟨[], true⟩ (PullEvent.nonblocking (Except.ok none))).2
      = ⟨[], true⟩ :=
  (pull_frame ⟨[], true⟩ (PullEvent.nonblocking (Except.ok none))).2.2
    (Error.ioErr IoError.desynchronized) rfl
